import Mathlib

/-
Shallow embedding of `judge/signals.py` from MakerlabGR/dmoj-online-judge.

The module is a collection of Django signal handlers (post_save / post_delete
receivers).  Each handler is embedded as a pure function that returns the list
of observable effects it performs (cache deletions, file unlinks, delegated
collaborator calls) and, for the handlers that run ORM `update` queries, a
transformation of an explicit list-of-rows database state.

`hasattr(instance, '_updating_stats_only')` is embedded as a boolean field
`updating_stats_only` on the instance (the attribute is only ever set to
`True` by the code, so presence of the attribute is the same as the field
being `true`).

`make_template_fragment_key` is Django library code outside this repository;
it deterministically combines the fragment name and the vary-on tuple into a
key, injectively for the arguments used here, so it is embedded as a free
constructor of the cache-key type.
-/

namespace DMOJSignals

/-- An entry of a `vary_on` tuple passed to `make_template_fragment_key`:
the code passes ints (ids) and strings (language codes, math engines). -/
inductive Arg
  | nat (n : Nat)
  | str (s : String)
deriving DecidableEq

/-- A cache key: either a Django template-fragment key built from a fragment
name and a vary-on tuple, or a plain string key built by `%`-formatting. -/
inductive CacheKey
  | fragment (name : String) (vary_on : List Arg)
  | raw (s : String)
deriving DecidableEq

/-- Django's `make_template_fragment_key` helper (library code): builds a
fragment cache key from the fragment name and the vary-on tuple. -/
def make_template_fragment_key (name : String) (vary_on : List Arg) : CacheKey :=
  CacheKey.fragment name vary_on

/-- The configuration the module reads: `settings.LANGUAGES` (pairs of
language code and display name), `EFFECTIVE_MATH_ENGINES` (imported from
`.models`), and `settings.DMOJ_PDF_PROBLEM_CACHE` (`none` when the setting is
absent; the code also treats the empty string as falsy). -/
structure Settings where
  LANGUAGES : List (String × String)
  EFFECTIVE_MATH_ENGINES : List String
  DMOJ_PDF_PROBLEM_CACHE : Option String
deriving DecidableEq

/-- `os.path.join` for the one shape used here (a directory and a relative
basename). -/
def os_path_join (dir base : String) : String :=
  if dir.endsWith "/" then dir ++ base else dir ++ "/" ++ base

/-- `get_pdf_path`: `None` when `settings.DMOJ_PDF_PROBLEM_CACHE` is falsy
(absent or empty), otherwise the join of the cache directory and `basename`. -/
def get_pdf_path (settings : Settings) (basename : String) : Option String :=
  match settings.DMOJ_PDF_PROBLEM_CACHE with
  | none => none
  | some dir => if dir = "" then none else some (os_path_join dir basename)

/-- `Profile` as used by this module: `id`, the organization ids produced by
`instance.organizations.values_list('id', flat=True)`, the
`is_webauthn_enabled` field, the ids of the remaining `webauthn_credentials`,
and the `_updating_stats_only` guard attribute. -/
structure Profile where
  id : Nat
  organizations : List Nat
  is_webauthn_enabled : Bool
  webauthn_credentials : List Nat
  updating_stats_only : Bool
deriving DecidableEq

/-- `Problem` as used by this module: `id`, `code`, and the
`_updating_stats_only` guard attribute. -/
structure Problem where
  id : Nat
  code : String
  updating_stats_only : Bool
deriving DecidableEq

/-- `Contest` as used by this module. -/
structure Contest where
  id : Nat
  updating_stats_only : Bool
deriving DecidableEq

/-- `Submission` as used by this module: `contest_object` is the id of the
`Contest` indirectly associated with the submission (nullable foreign key),
`contest` is the id of the associated `ContestSubmission` (`none` when the
reverse one-to-one is null), `user` the submitting profile and `problem` the
problem. -/
structure Submission where
  id : Nat
  contest_object : Option Nat
  contest : Option Nat
  user : Profile
  problem : Problem
deriving DecidableEq

/-- A `ContestParticipation` as used by this module: `contest_id` is the id
of its contest. -/
structure Participation where
  id : Nat
  contest_id : Nat
deriving DecidableEq

/-- `ContestSubmission` as used by this module. -/
structure ContestSubmission where
  submission_id : Nat
  participation : Participation
deriving DecidableEq

/-- `ContestProblem` as used by this module: `contest` is the id of the
contest the problem belongs to. -/
structure ContestProblem where
  contest : Nat
deriving DecidableEq

/-- `WebAuthnCredential` as used by this module: `user` is the owning
profile. -/
structure WebAuthnCredential where
  id : Nat
  user : Profile
deriving DecidableEq

/-- Instances of the remaining models: the handlers only read `instance.id`. -/
structure License where
  id : Nat
deriving DecidableEq

structure Language where
  id : Nat
deriving DecidableEq

structure Judge where
  id : Nat
deriving DecidableEq

structure Comment where
  id : Nat
deriving DecidableEq

structure BlogPost where
  id : Nat
deriving DecidableEq

structure Organization where
  id : Nat
deriving DecidableEq

structure MiscConfig where
  id : Nat
deriving DecidableEq

/-- The observable effects a handler performs.  The delegated collaborator
calls (`finished_submission`, `calculate_points`, `update_stats`,
`recompute_results`) and `profile.save(update_fields=...)` carry the object
they are invoked on, as it is at the moment of the call. -/
inductive Effect
  | cacheDelete (key : CacheKey)
  | cacheDeleteMany (keys : List CacheKey)
  | unlink (path : String)
  | finishedSubmission (sub : Submission)
  | calculatePoints (profile : Profile)
  | updateStats (problem : Problem)
  | recomputeResults (participation : Participation)
  | profileSave (profile : Profile) (update_fields : List String)
deriving DecidableEq

/-- The cache keys an effect deletes. -/
def effectKeys : Effect → List CacheKey
  | Effect.cacheDelete k => [k]
  | Effect.cacheDeleteMany ks => ks
  | _ => []

/-- All cache keys deleted over a trace, in order. -/
def deletedKeys (trace : List Effect) : List CacheKey :=
  (trace.map effectKeys).flatten

/-- All paths unlinked over a trace, in order. -/
def unlinkedPaths (trace : List Effect) : List String :=
  trace.filterMap fun e =>
    match e with
    | Effect.unlink p => some p
    | _ => none

/-- Cache and filesystem state, for frame conditions. -/
structure SysState where
  cachedKeys : List CacheKey
  files : List String
deriving DecidableEq

/-- Apply one effect to the cache/filesystem state.  Deleting an absent key
and unlinking an absent file are no-ops (`cache.delete` ignores misses and
`unlink_if_exists` swallows `ENOENT`); delegated collaborator calls do not
touch the cache or the filesystem. -/
def applyEffect (st : SysState) : Effect → SysState
  | Effect.cacheDelete k => { st with cachedKeys := st.cachedKeys.filter fun k2 => !decide (k2 = k) }
  | Effect.cacheDeleteMany ks => { st with cachedKeys := st.cachedKeys.filter fun k2 => !decide (k2 ∈ ks) }
  | Effect.unlink p => { st with files := st.files.filter fun q => !decide (q = p) }
  | _ => st

/-- Apply a whole trace, left to right. -/
def applyTrace (st : SysState) (trace : List Effect) : SysState :=
  trace.foldl applyEffect st

/-- A Django queryset `update` restricted to a list-of-rows state: apply `f`
to exactly the rows matching the filter predicate `p`. -/
def updateWhere (db : List Submission) (p : Submission → Bool)
    (f : Submission → Submission) : List Submission :=
  db.map fun s => if p s then f s else s

/-- `problem_update` (post_save on `Problem`): under the
`_updating_stats_only` guard it does nothing; otherwise it issues four
batched `cache.delete_many` calls and, per language, unlinks the cached PDF
when `get_pdf_path` yields a path. -/
def problem_update (settings : Settings) (inst : Problem) : List Effect :=
  if inst.updating_stats_only then [] else
  [Effect.cacheDeleteMany
     [make_template_fragment_key "submission_problem" [Arg.nat inst.id],
      make_template_fragment_key "problem_feed" [Arg.nat inst.id],
      CacheKey.raw ("problem_tls:" ++ toString inst.id),
      CacheKey.raw ("problem_mls:" ++ toString inst.id)],
   Effect.cacheDeleteMany
     (settings.LANGUAGES.flatMap fun lp =>
       settings.EFFECTIVE_MATH_ENGINES.map fun engine =>
         make_template_fragment_key "problem_html"
           [Arg.nat inst.id, Arg.str engine, Arg.str lp.1]),
   Effect.cacheDeleteMany
     (settings.LANGUAGES.map fun lp =>
       make_template_fragment_key "problem_authors" [Arg.nat inst.id, Arg.str lp.1]),
   Effect.cacheDeleteMany
     (settings.LANGUAGES.map fun lp =>
       CacheKey.raw ("generated-meta-problem:" ++ lp.1 ++ ":" ++ toString inst.id))]
  ++ settings.LANGUAGES.filterMap fun lp =>
       (get_pdf_path settings (inst.code ++ "." ++ lp.1 ++ ".pdf")).map Effect.unlink

/-- `profile_update` (post_save on `Profile`): under the guard it does
nothing; otherwise one batched `cache.delete_many` of the `user_about`
fragments (one per math engine) and the `org_member_count` fragments (one per
organization of the profile). -/
def profile_update (settings : Settings) (inst : Profile) : List Effect :=
  if inst.updating_stats_only then [] else
  [Effect.cacheDeleteMany
     ((settings.EFFECTIVE_MATH_ENGINES.map fun engine =>
         make_template_fragment_key "user_about" [Arg.nat inst.id, Arg.str engine]) ++
      (inst.organizations.map fun org_id =>
         make_template_fragment_key "org_member_count" [Arg.nat org_id]))]

/-- `webauthn_delete` (post_delete on `WebAuthnCredential`): when the owning
profile has no remaining credentials, clear `is_webauthn_enabled` and save
the profile with `update_fields=['is_webauthn_enabled']`.  Returns the
profile object as the handler leaves it, and the trace. -/
def webauthn_delete (inst : WebAuthnCredential) : Profile × List Effect :=
  let profile := inst.user
  if profile.webauthn_credentials.length = 0 then
    let profile2 := { profile with is_webauthn_enabled := false }
    (profile2, [Effect.profileSave profile2 ["is_webauthn_enabled"]])
  else
    (profile, [])

/-- `contest_update` (post_save on `Contest`): under the guard it does
nothing; otherwise one batched `cache.delete_many`. -/
def contest_update (settings : Settings) (inst : Contest) : List Effect :=
  if inst.updating_stats_only then [] else
  [Effect.cacheDeleteMany
     (CacheKey.raw ("generated-meta-contest:" ++ toString inst.id) ::
      settings.EFFECTIVE_MATH_ENGINES.map fun engine =>
        make_template_fragment_key "contest_html" [Arg.nat inst.id, Arg.str engine])]

/-- `contest_problem_delete` (post_delete on `ContestProblem`):
`Submission.objects.filter(contest_object=instance.contest,
contest__isnull=True).update(contest_object=None)`. -/
def contest_problem_delete (inst : ContestProblem) (db : List Submission) :
    List Submission :=
  updateWhere db
    (fun s => s.contest_object == some inst.contest && s.contest == none)
    (fun s => { s with contest_object := none })

/-- `license_update` (post_save on `License`). -/
def license_update (inst : License) : List Effect :=
  [Effect.cacheDelete (make_template_fragment_key "license_html" [Arg.nat inst.id])]

/-- `language_update` (post_save on `Language`). -/
def language_update (inst : Language) : List Effect :=
  [Effect.cacheDeleteMany
     [make_template_fragment_key "language_html" [Arg.nat inst.id],
      CacheKey.raw "lang:cn_map"]]

/-- `judge_update` (post_save on `Judge`). -/
def judge_update (inst : Judge) : List Effect :=
  [Effect.cacheDelete (make_template_fragment_key "judge_html" [Arg.nat inst.id])]

/-- `comment_update` (post_save on `Comment`). -/
def comment_update (inst : Comment) : List Effect :=
  [Effect.cacheDelete (CacheKey.raw ("comment_feed:" ++ toString inst.id))]

/-- `post_update` (post_save on `BlogPost`). -/
def post_update (settings : Settings) (inst : BlogPost) : List Effect :=
  [Effect.cacheDeleteMany
     [make_template_fragment_key "post_summary" [Arg.nat inst.id],
      CacheKey.raw ("blog_slug:" ++ toString inst.id),
      CacheKey.raw ("blog_feed:" ++ toString inst.id)],
   Effect.cacheDeleteMany
     (settings.EFFECTIVE_MATH_ENGINES.map fun engine =>
        make_template_fragment_key "post_content" [Arg.nat inst.id, Arg.str engine])]

/-- `submission_delete` (post_delete on `Submission`): call
`finished_submission(instance)`, then set `_updating_stats_only` on
`instance.user` and call `calculate_points()` on it, then set
`_updating_stats_only` on `instance.problem` and call `update_stats()` on it.
The flag mutations are visible in the objects the delegation events carry. -/
def submission_delete (inst : Submission) : List Effect :=
  let user := { inst.user with updating_stats_only := true }
  let problem := { inst.problem with updating_stats_only := true }
  [Effect.finishedSubmission inst,
   Effect.calculatePoints user,
   Effect.updateStats problem]

/-- `contest_submission_delete` (post_delete on `ContestSubmission`): call
`recompute_results()` on the participation, then
`Submission.objects.filter(id=instance.submission_id).update(contest_object=None)`. -/
def contest_submission_delete (inst : ContestSubmission) (db : List Submission) :
    List Effect × List Submission :=
  let participation := inst.participation
  ([Effect.recomputeResults participation],
   updateWhere db (fun s => s.id == inst.submission_id)
     (fun s => { s with contest_object := none }))

/-- `organization_update` (post_save on `Organization`). -/
def organization_update (settings : Settings) (inst : Organization) : List Effect :=
  [Effect.cacheDeleteMany
     (settings.EFFECTIVE_MATH_ENGINES.map fun engine =>
        make_template_fragment_key "organization_html" [Arg.nat inst.id, Arg.str engine])]

/-- `misc_config_update` (post_save on `MiscConfig`). -/
def misc_config_update (inst : MiscConfig) : List Effect :=
  [Effect.cacheDelete (CacheKey.raw "misc_config")]

/-- `misc_config_delete` (post_delete on `MiscConfig`). -/
def misc_config_delete (inst : MiscConfig) : List Effect :=
  [Effect.cacheDelete (CacheKey.raw "misc_config")]

/-- `contest_submission_update` (post_save on `ContestSubmission`):
`Submission.objects.filter(id=instance.submission_id).update(contest_object_id=instance.participation.contest_id)`.
No cache traffic, hence the empty trace. -/
def contest_submission_update (inst : ContestSubmission) (db : List Submission) :
    List Effect × List Submission :=
  ([], updateWhere db (fun s => s.id == inst.submission_id)
     (fun s => { s with contest_object := some inst.participation.contest_id }))

/-- Linux `errno.ENOENT`. -/
def ENOENT : Nat := 2

/-- An `OSError`, identified by its `errno`. -/
structure OSError where
  errno : Nat
deriving DecidableEq

/-- `unlink_if_exists`: run `os.unlink(file)` (whose behaviour is supplied by
the environment `os_unlink`); swallow an `OSError` whose `errno` is `ENOENT`,
re-raise any other `OSError`. -/
def unlink_if_exists (os_unlink : String → Except OSError Unit) (file : String) :
    Except OSError Unit :=
  match os_unlink file with
  | Except.ok _ => Except.ok ()
  | Except.error e => if e.errno ≠ ENOENT then Except.error e else Except.ok ()

/-- The two Django signals used by the module. -/
inductive Signal
  | post_save
  | post_delete
deriving DecidableEq

/-- The model classes appearing as `sender=` of a receiver. -/
inductive Model
  | Problem
  | Profile
  | WebAuthnCredential
  | Contest
  | ContestProblem
  | License
  | Language
  | Judge
  | Comment
  | BlogPost
  | Submission
  | ContestSubmission
  | Organization
  | MiscConfig
deriving DecidableEq

/-- One `@receiver(signal, sender=Model)` registration: the signal, the
sender and the decorated handler's name. -/
structure Registration where
  signal : Signal
  sender : Model
  handler : String
deriving DecidableEq

/-- The sixteen `@receiver` registrations of the module, in file order. -/
def registrations : List Registration :=
  [⟨Signal.post_save, Model.Problem, "problem_update"⟩,
   ⟨Signal.post_save, Model.Profile, "profile_update"⟩,
   ⟨Signal.post_delete, Model.WebAuthnCredential, "webauthn_delete"⟩,
   ⟨Signal.post_save, Model.Contest, "contest_update"⟩,
   ⟨Signal.post_delete, Model.ContestProblem, "contest_problem_delete"⟩,
   ⟨Signal.post_save, Model.License, "license_update"⟩,
   ⟨Signal.post_save, Model.Language, "language_update"⟩,
   ⟨Signal.post_save, Model.Judge, "judge_update"⟩,
   ⟨Signal.post_save, Model.Comment, "comment_update"⟩,
   ⟨Signal.post_save, Model.BlogPost, "post_update"⟩,
   ⟨Signal.post_delete, Model.Submission, "submission_delete"⟩,
   ⟨Signal.post_delete, Model.ContestSubmission, "contest_submission_delete"⟩,
   ⟨Signal.post_save, Model.Organization, "organization_update"⟩,
   ⟨Signal.post_save, Model.MiscConfig, "misc_config_update"⟩,
   ⟨Signal.post_delete, Model.MiscConfig, "misc_config_delete"⟩,
   ⟨Signal.post_save, Model.ContestSubmission, "contest_submission_update"⟩]

/-- Concrete fixtures used by the witness theorems. -/
def settingsW : Settings :=
  ⟨[("en", "English"), ("el", "Greek")], ["jax", "svg"], some "/pdfcache"⟩

def stW : SysState := ⟨[CacheKey.raw "misc_config"], ["/pdfcache/aplusb.en.pdf"]⟩

def pW : Problem := ⟨7, "aplusb", false⟩

def pFlagged : Problem := ⟨7, "aplusb", true⟩

def prFlagged : Profile := ⟨3, [11], true, [], true⟩

def cFlagged : Contest := ⟨5, true⟩

def credW0 : WebAuthnCredential := ⟨1, ⟨3, [11], true, [], false⟩⟩

def credW1 : WebAuthnCredential := ⟨2, ⟨4, [], true, [9], false⟩⟩

def osUnlinkEacces : String → Except OSError Unit := fun _ => Except.error ⟨13⟩

theorem deletedKeys_append (t1 t2 : List Effect) :
    deletedKeys (t1 ++ t2) = deletedKeys t1 ++ deletedKeys t2 := by
  simp [deletedKeys]

theorem deletedKeys_filterMap_unlink {α : Type} (L : List α) (g : α → Option String) :
    deletedKeys (L.filterMap fun a => (g a).map Effect.unlink) = [] := by
  induction L with
  | nil => rfl
  | cons a t ih =>
    rw [List.filterMap_cons]
    cases hg : g a with
    | none => simpa [hg] using ih
    | some path => simpa [hg, deletedKeys, effectKeys] using ih

/-- Claim C10: the post_save handler and the post_delete handler for
`MiscConfig` are extensionally equal; on every instance each deletes exactly
the single cache key `misc_config` and performs no other effect. -/
theorem misc_config_handlers_extensionally_equal (inst : MiscConfig) :
    misc_config_update inst = misc_config_delete inst ∧
    misc_config_update inst = [Effect.cacheDelete (CacheKey.raw "misc_config")] :=
  ⟨rfl, rfl⟩

/-- Claim C7: the module registers sixteen (at least ten) receivers; the
post_save senders are, in file order, Problem, Profile, Contest, License,
Language, Judge, Comment, BlogPost, Organization, MiscConfig and
ContestSubmission; the post_delete senders are WebAuthnCredential,
ContestProblem, Submission, ContestSubmission and MiscConfig; and the
sixteen handlers are pairwise distinct, so no handler is registered for more
than one (sender, signal) pair. -/
theorem receiver_registrations_spec :
    10 ≤ registrations.length ∧
    (registrations.filter fun r => decide (r.signal = Signal.post_save)).map
        Registration.sender =
      [Model.Problem, Model.Profile, Model.Contest, Model.License, Model.Language,
       Model.Judge, Model.Comment, Model.BlogPost, Model.Organization,
       Model.MiscConfig, Model.ContestSubmission] ∧
    (registrations.filter fun r => decide (r.signal = Signal.post_delete)).map
        Registration.sender =
      [Model.WebAuthnCredential, Model.ContestProblem, Model.Submission,
       Model.ContestSubmission, Model.MiscConfig] ∧
    registrations.Pairwise (fun a b => a.handler ≠ b.handler) := by
  refine ⟨by decide, by decide, by decide, ?_⟩
  decide

/-- Claim C9: `unlink_if_exists` returns normally when the unlink succeeds
and when it fails with `ENOENT`; it re-raises exactly the `OSError`s whose
`errno` is not `ENOENT`. -/
theorem unlink_if_exists_spec (os_unlink : String → Except OSError Unit) (file : String) :
    (os_unlink file = Except.ok () → unlink_if_exists os_unlink file = Except.ok ()) ∧
    (∀ e : OSError, os_unlink file = Except.error e → e.errno = ENOENT →
       unlink_if_exists os_unlink file = Except.ok ()) ∧
    (∀ e : OSError, os_unlink file = Except.error e → e.errno ≠ ENOENT →
       unlink_if_exists os_unlink file = Except.error e) ∧
    (∀ e : OSError, unlink_if_exists os_unlink file = Except.error e →
       os_unlink file = Except.error e ∧ e.errno ≠ ENOENT) := by
  unfold unlink_if_exists
  cases h : os_unlink file with
  | ok u => simp [h]
  | error e =>
    by_cases he : e.errno = ENOENT <;> simp [h, he]

theorem unlink_if_exists_spec_witness :
    osUnlinkEacces "x.pdf" = Except.error ⟨13⟩ ∧
    (⟨13⟩ : OSError).errno ≠ ENOENT ∧
    unlink_if_exists osUnlinkEacces "x.pdf" = Except.error ⟨13⟩ :=
  ⟨rfl, by decide,
   (unlink_if_exists_spec osUnlinkEacces "x.pdf").2.2.1 ⟨13⟩ rfl (by decide)⟩

/-- Claim C1: on post_delete of a `Submission` the handler emits exactly, in
order, the `finished_submission` call on the deleted instance, then the
`calculate_points` call on the user's profile, then the `update_stats` call
on the problem, with `_updating_stats_only` set on the profile
(respectively the problem) the collaborator receives; it deletes no cache
keys, unlinks no files and leaves the cache/filesystem state unchanged, so
no standings/points arithmetic happens in the handler itself. -/
theorem submission_delete_delegates (inst : Submission) :
    submission_delete inst =
      [Effect.finishedSubmission inst,
       Effect.calculatePoints { inst.user with updating_stats_only := true },
       Effect.updateStats { inst.problem with updating_stats_only := true }] ∧
    ({ inst.user with updating_stats_only := true } : Profile).updating_stats_only = true ∧
    ({ inst.problem with updating_stats_only := true } : Problem).updating_stats_only = true ∧
    deletedKeys (submission_delete inst) = [] ∧
    unlinkedPaths (submission_delete inst) = [] ∧
    (∀ st : SysState, applyTrace st (submission_delete inst) = st) :=
  ⟨rfl, rfl, rfl, rfl, rfl, fun _ => rfl⟩

theorem updateWhere_getElem (db : List Submission) (p : Submission → Bool)
    (f : Submission → Submission) (i : Nat) :
    (updateWhere db p f)[i]? = (db[i]?).map fun s => if p s then f s else s := by
  unfold updateWhere
  exact List.getElem?_map _ _ _

/-- Claim C3: on post_delete of a `ContestProblem`, exactly the submissions
whose `contest_object` equals the deleted problem's contest and whose
`contest` (ContestSubmission link) is null get `contest_object` set to null;
every other submission (non-null link, or different contest) is unchanged.
Stated row by row over the database. -/
theorem contest_problem_delete_spec (inst : ContestProblem) (db : List Submission)
    (i : Nat) :
    (contest_problem_delete inst db)[i]? =
      (db[i]?).map fun s =>
        if s.contest_object = some inst.contest ∧ s.contest = none
        then { s with contest_object := none } else s := by
  unfold contest_problem_delete
  rw [updateWhere_getElem]
  cases db[i]? with
  | none => rfl
  | some s =>
    by_cases h1 : s.contest_object = some inst.contest <;>
      by_cases h2 : s.contest = none <;>
      simp [h1, h2]

/-- Claim C4: on post_delete of a `ContestSubmission`, the handler emits
exactly the `recompute_results` delegation on the deleted record's
participation, and in the database sets `contest_object` to null on exactly
the submissions whose id is the deleted record's `submission_id`, leaving
every other submission unchanged. -/
theorem contest_submission_delete_spec (inst : ContestSubmission)
    (db : List Submission) (i : Nat) :
    (contest_submission_delete inst db).1 =
      [Effect.recomputeResults inst.participation] ∧
    ((contest_submission_delete inst db).2)[i]? =
      (db[i]?).map fun s =>
        if s.id = inst.submission_id
        then { s with contest_object := none } else s := by
  refine ⟨rfl, ?_⟩
  show (updateWhere db _ _)[i]? = _
  rw [updateWhere_getElem]
  cases db[i]? with
  | none => rfl
  | some s =>
    by_cases h : s.id = inst.submission_id <;> simp [h]

/-- Claim C6: on post_save of a `ContestSubmission`, the handler performs no
cache deletion and sets `contest_object` to the `contest_id` of the saved
record's participation on exactly the submissions whose id is the saved
record's `submission_id`, leaving every other submission unchanged. -/
theorem contest_submission_update_spec (inst : ContestSubmission)
    (db : List Submission) (i : Nat) :
    (contest_submission_update inst db).1 = [] ∧
    deletedKeys (contest_submission_update inst db).1 = [] ∧
    ((contest_submission_update inst db).2)[i]? =
      (db[i]?).map fun s =>
        if s.id = inst.submission_id
        then { s with contest_object := some inst.participation.contest_id }
        else s := by
  refine ⟨rfl, rfl, ?_⟩
  show (updateWhere db _ _)[i]? = _
  rw [updateWhere_getElem]
  cases db[i]? with
  | none => rfl
  | some s =>
    by_cases h : s.id = inst.submission_id <;> simp [h]

/-- Claim C8: on post_delete of a `WebAuthnCredential`, when the owning
profile has no remaining credentials `is_webauthn_enabled` is set to `False`
and the profile is saved with `update_fields=['is_webauthn_enabled']`, every
other field of the profile being unchanged; when any credential remains the
profile is not modified and nothing is saved. -/
theorem webauthn_delete_spec (inst : WebAuthnCredential) :
    (inst.user.webauthn_credentials.length = 0 →
       (webauthn_delete inst).1 = { inst.user with is_webauthn_enabled := false } ∧
       (webauthn_delete inst).1.id = inst.user.id ∧
       (webauthn_delete inst).1.organizations = inst.user.organizations ∧
       (webauthn_delete inst).1.webauthn_credentials = inst.user.webauthn_credentials ∧
       (webauthn_delete inst).1.updating_stats_only = inst.user.updating_stats_only ∧
       (webauthn_delete inst).1.is_webauthn_enabled = false ∧
       (webauthn_delete inst).2 =
         [Effect.profileSave { inst.user with is_webauthn_enabled := false }
            ["is_webauthn_enabled"]]) ∧
    (inst.user.webauthn_credentials.length ≠ 0 →
       (webauthn_delete inst).1 = inst.user ∧ (webauthn_delete inst).2 = []) := by
  unfold webauthn_delete
  by_cases h : inst.user.webauthn_credentials.length = 0 <;> simp [h]

theorem webauthn_delete_spec_witness :
    credW0.user.webauthn_credentials.length = 0 ∧
    (webauthn_delete credW0).1 = { credW0.user with is_webauthn_enabled := false } ∧
    (webauthn_delete credW0).2 =
      [Effect.profileSave { credW0.user with is_webauthn_enabled := false }
         ["is_webauthn_enabled"]] ∧
    credW1.user.webauthn_credentials.length ≠ 0 ∧
    (webauthn_delete credW1).1 = credW1.user ∧
    (webauthn_delete credW1).2 = [] := by
  have h0 := (webauthn_delete_spec credW0).1 rfl
  have h1 := (webauthn_delete_spec credW1).2 (by decide)
  exact ⟨rfl, h0.1, h0.2.2.2.2.2.2, by decide, h1.1, h1.2⟩

/-- Claim C2: for a `Problem`, `Profile` or `Contest` instance carrying
`_updating_stats_only`, the respective post_save handler returns immediately,
performing no cache-key deletion and no unlinking and leaving cache and
filesystem state unchanged; without the attribute the handler performs its
cache invalidation (its trace is nonempty and contains its
`cache.delete_many` call). -/
theorem updating_stats_only_guard (settings : Settings) (st : SysState)
    (p : Problem) (pr : Profile) (c : Contest) :
    (problem_update settings p = [] ↔ p.updating_stats_only = true) ∧
    (profile_update settings pr = [] ↔ pr.updating_stats_only = true) ∧
    (contest_update settings c = [] ↔ c.updating_stats_only = true) ∧
    (p.updating_stats_only = true → applyTrace st (problem_update settings p) = st) ∧
    (pr.updating_stats_only = true → applyTrace st (profile_update settings pr) = st) ∧
    (c.updating_stats_only = true → applyTrace st (contest_update settings c) = st) ∧
    (p.updating_stats_only = false →
       ∃ ks, Effect.cacheDeleteMany ks ∈ problem_update settings p) ∧
    (pr.updating_stats_only = false →
       ∃ ks, Effect.cacheDeleteMany ks ∈ profile_update settings pr) ∧
    (c.updating_stats_only = false →
       ∃ ks, Effect.cacheDeleteMany ks ∈ contest_update settings c) := by
  refine ⟨?_, ?_, ?_, ?_, ?_, ?_, ?_, ?_, ?_⟩
  · cases hp : p.updating_stats_only <;> simp [problem_update, hp]
  · cases hpr : pr.updating_stats_only <;> simp [profile_update, hpr]
  · cases hc : c.updating_stats_only <;> simp [contest_update, hc]
  · intro hp; simp [problem_update, hp, applyTrace]
  · intro hpr; simp [profile_update, hpr, applyTrace]
  · intro hc; simp [contest_update, hc, applyTrace]
  · intro hp
    refine ⟨[make_template_fragment_key "submission_problem" [Arg.nat p.id],
             make_template_fragment_key "problem_feed" [Arg.nat p.id],
             CacheKey.raw ("problem_tls:" ++ toString p.id),
             CacheKey.raw ("problem_mls:" ++ toString p.id)], ?_⟩
    simp [problem_update, hp]
  · intro hpr
    refine ⟨(settings.EFFECTIVE_MATH_ENGINES.map fun engine =>
        make_template_fragment_key "user_about" [Arg.nat pr.id, Arg.str engine]) ++
      (pr.organizations.map fun org_id =>
        make_template_fragment_key "org_member_count" [Arg.nat org_id]), ?_⟩
    simp [profile_update, hpr]
  · intro hc
    refine ⟨CacheKey.raw ("generated-meta-contest:" ++ toString c.id) ::
      settings.EFFECTIVE_MATH_ENGINES.map fun engine =>
        make_template_fragment_key "contest_html" [Arg.nat c.id, Arg.str engine], ?_⟩
    simp [contest_update, hc]

theorem updating_stats_only_guard_witness :
    pFlagged.updating_stats_only = true ∧
    applyTrace stW (problem_update settingsW pFlagged) = stW ∧
    prFlagged.updating_stats_only = true ∧
    applyTrace stW (profile_update settingsW prFlagged) = stW ∧
    cFlagged.updating_stats_only = true ∧
    applyTrace stW (contest_update settingsW cFlagged) = stW := by
  have h := updating_stats_only_guard settingsW stW pFlagged prFlagged cFlagged
  exact ⟨rfl, h.2.2.2.1 rfl, rfl, h.2.2.2.2.1 rfl, rfl, h.2.2.2.2.2.1 rfl⟩

/-- Claim C5: on post_save of a `Problem` without the guard attribute, the
cache keys deleted across the batched `delete_many` calls are exactly the
`submission_problem` and `problem_feed` fragments for the problem's id,
`problem_tls:<id>` and `problem_mls:<id>`, a `problem_html` fragment for
every (language, math engine) pair, a `problem_authors` fragment for every
language, and `generated-meta-problem:<lang>:<id>` for every language; and
the files unlinked are exactly the paths `get_pdf_path` returns for
`<code>.<lang>.pdf` per language, so nothing is unlinked when
`DMOJ_PDF_PROBLEM_CACHE` is unset. -/
theorem problem_update_cache_exact (settings : Settings) (p : Problem)
    (h : p.updating_stats_only = false) :
    (∀ k : CacheKey, k ∈ deletedKeys (problem_update settings p) ↔
       (k = make_template_fragment_key "submission_problem" [Arg.nat p.id] ∨
        k = make_template_fragment_key "problem_feed" [Arg.nat p.id] ∨
        k = CacheKey.raw ("problem_tls:" ++ toString p.id) ∨
        k = CacheKey.raw ("problem_mls:" ++ toString p.id) ∨
        (∃ lang lname, (lang, lname) ∈ settings.LANGUAGES ∧
          ∃ engine ∈ settings.EFFECTIVE_MATH_ENGINES,
            k = make_template_fragment_key "problem_html"
                  [Arg.nat p.id, Arg.str engine, Arg.str lang]) ∨
        (∃ lang lname, (lang, lname) ∈ settings.LANGUAGES ∧
          k = make_template_fragment_key "problem_authors" [Arg.nat p.id, Arg.str lang]) ∨
        (∃ lang lname, (lang, lname) ∈ settings.LANGUAGES ∧
          k = CacheKey.raw ("generated-meta-problem:" ++ lang ++ ":" ++ toString p.id)))) ∧
    (∀ path : String, Effect.unlink path ∈ problem_update settings p ↔
       ∃ lang lname, (lang, lname) ∈ settings.LANGUAGES ∧
         get_pdf_path settings (p.code ++ "." ++ lang ++ ".pdf") = some path) ∧
    (settings.DMOJ_PDF_PROBLEM_CACHE = none →
       unlinkedPaths (problem_update settings p) = []) := by
  refine ⟨?_, ?_, ?_⟩
  · intro k
    simp only [problem_update, h, Bool.false_eq_true, if_false]
    rw [deletedKeys_append, deletedKeys_filterMap_unlink, List.append_nil]
    simp only [deletedKeys, List.map_cons, List.map_nil, effectKeys,
      List.flatten_cons, List.flatten_nil, List.append_nil, List.mem_append,
      List.mem_cons, List.not_mem_nil, or_false, List.mem_flatMap, List.mem_map]
    constructor
    · rintro ((h1 | h1 | h1 | h1) | ⟨lp, hlp, eng, heng, hk⟩ | ⟨lp, hlp, hk⟩ | ⟨lp, hlp, hk⟩)
      · exact Or.inl h1
      · exact Or.inr (Or.inl h1)
      · exact Or.inr (Or.inr (Or.inl h1))
      · exact Or.inr (Or.inr (Or.inr (Or.inl h1)))
      · exact Or.inr (Or.inr (Or.inr (Or.inr (Or.inl
          ⟨lp.1, lp.2, by simpa using hlp, eng, heng, hk.symm⟩))))
      · exact Or.inr (Or.inr (Or.inr (Or.inr (Or.inr (Or.inl
          ⟨lp.1, lp.2, by simpa using hlp, hk.symm⟩)))))
      · exact Or.inr (Or.inr (Or.inr (Or.inr (Or.inr (Or.inr
          ⟨lp.1, lp.2, by simpa using hlp, hk.symm⟩)))))
    · rintro (h1 | h1 | h1 | h1 | ⟨lang, lname, hmem, eng, heng, rfl⟩ |
        ⟨lang, lname, hmem, rfl⟩ | ⟨lang, lname, hmem, rfl⟩)
      · exact Or.inl (Or.inl h1)
      · exact Or.inl (Or.inr (Or.inl h1))
      · exact Or.inl (Or.inr (Or.inr (Or.inl h1)))
      · exact Or.inl (Or.inr (Or.inr (Or.inr h1)))
      · exact Or.inr (Or.inl ⟨(lang, lname), hmem, eng, heng, rfl⟩)
      · exact Or.inr (Or.inr (Or.inl ⟨(lang, lname), hmem, rfl⟩))
      · exact Or.inr (Or.inr (Or.inr ⟨(lang, lname), hmem, rfl⟩))
  · intro path
    simp only [problem_update, h, Bool.false_eq_true, if_false, List.mem_append,
      List.mem_cons, List.not_mem_nil, or_false, reduceCtorEq, false_or,
      List.mem_filterMap, Option.map_eq_some', Effect.unlink.injEq,
      exists_eq_right, Prod.exists]
  · intro hnone
    simp [problem_update, h, unlinkedPaths, get_pdf_path, hnone, List.filterMap_append]


theorem problem_update_cache_exact_witness :
    pW.updating_stats_only = false ∧
    make_template_fragment_key "problem_feed" [Arg.nat 7] ∈
      deletedKeys (problem_update settingsW pW) := by
  refine ⟨rfl, ?_⟩
  exact ((problem_update_cache_exact settingsW pW rfl).1 _).mpr (Or.inr (Or.inl rfl))

end DMOJSignals
